import Mathlib

/-!
Shallow embedding of the `retry` Go package (github.com/alfzs/retry).

The package exposes one public function, `WithRetry`, which runs a fallible
operation up to `MaxAttempts` times with an exponential backoff delay between
failed attempts, classifying errors with `ShouldRetry` (defaulting to the
built-in `shouldRetryError`) and wrapping terminal failures in `RetryError`.

Modelling conventions:
* Go `error` values that can reach the classifier are modelled by the
  inductive type `Err`.  Its constructors mirror the concrete Go error types
  the classifier inspects: the `context.Canceled` / `context.DeadlineExceeded`
  sentinels, values implementing `net.Error`, `*net.OpError`, `*url.Error`,
  the package's own `*HTTPError`, a generic `fmt.Errorf("%w", ...)` wrapper,
  and an opaque error carrying only its message.
* `errors.Is` / `errors.As` walk the `Unwrap()` chain; this is modelled by
  `Err.unwrapErr` and the chain-walking search `errorsAs`.
* Crucially, `*HTTPError` has methods `Error() string`, `Timeout() bool` and
  `Temporary() bool` (all on the pointer receiver), so it implements the
  `net.Error` interface; likewise `*net.OpError` and `*url.Error` implement
  it.  `Err.isNetError` records exactly which constructors implement
  `net.Error`, and `Err.netTimeout` gives the result of calling `Timeout()`
  on such a value (for `*HTTPError` that is `StatusCode == 408`, from
  `HTTPError.Timeout` in the source).
* Durations (`time.Duration`) are `Int` nanoseconds.
-/

/-- Go `error` values, as inspected by the retry package.  The Boolean
`timeout` fields on `netErr` / `opErr` / `urlErr` record what the external
type's `Timeout()` method returns; the `inner` fields record what `Unwrap()`
returns (`*net.OpError` unwraps to its `Err` field, which may be `nil`;
`*url.Error` always wraps an inner error). -/
inductive Err where
  | canceled
  | deadlineExceeded
  | netErr (timeout : Bool) (msg : String)
  | opErr (timeout : Bool) (inner : Option Err)
  | urlErr (timeout : Bool) (inner : Err)
  | httpErr (statusCode : Int) (message : String)
  | wrap (inner : Err)
  | other (msg : String)

namespace Err

/-- `Unwrap()` as used by `errors.Is` / `errors.As` chain walking. -/
def unwrapErr : Err → Option Err
  | .wrap i => some i
  | .opErr _ i => i
  | .urlErr _ i => some i
  | _ => none

/-- Whether the concrete type of this error value implements the `net.Error`
interface (`Error() string; Timeout() bool; Temporary() bool`).  `*HTTPError`
does: it defines all three methods. -/
def isNetError : Err → Bool
  | .netErr _ _ => true
  | .opErr _ _ => true
  | .urlErr _ _ => true
  | .httpErr _ _ => true
  | _ => false

/-- The result of calling `Timeout()` through the `net.Error` interface.
For `*HTTPError` this is `HTTPError.Timeout`: `StatusCode == 408`.
On a non-`net.Error` value this is never consulted; return `false`. -/
def netTimeout : Err → Bool
  | .netErr t _ => t
  | .opErr t _ => t
  | .urlErr t _ => t
  | .httpErr code _ => code == 408
  | _ => false

/-- Concrete type is `*net.OpError`. -/
def isOpError : Err → Bool
  | .opErr _ _ => true
  | _ => false

/-- Concrete type is `*url.Error`. -/
def isUrlError : Err → Bool
  | .urlErr _ _ => true
  | _ => false

/-- Concrete type is `*HTTPError`. -/
def isHTTPError : Err → Bool
  | .httpErr _ _ => true
  | _ => false

end Err

/-- `errors.As(err, target)`: walk the unwrap chain and return the first
element whose concrete type matches (here: satisfies the predicate `p`).
None of the modelled error types defines a custom `As` or `Is` method. -/
def errorsAs (p : Err → Bool) (e : Err) : Option Err :=
  if p e then some e
  else
    match e with
    | .wrap i => errorsAs p i
    | .opErr _ (some i) => errorsAs p i
    | .urlErr _ i => errorsAs p i
    | _ => none

/-- `errors.Is(err, context.Canceled) || errors.Is(err, context.DeadlineExceeded)`:
the error is, or wraps, one of the two context sentinels. -/
def errorsIsCtx (e : Err) : Bool :=
  match e with
  | .canceled => true
  | .deadlineExceeded => true
  | .wrap i => errorsIsCtx i
  | .opErr _ (some i) => errorsIsCtx i
  | .urlErr _ i => errorsIsCtx i
  | _ => false

/-- `HTTPError.Temporary` from the source: `StatusCode >= 500 || StatusCode == 429`. -/
def HTTPError.Temporary (statusCode : Int) : Bool :=
  statusCode ≥ 500 || statusCode == 429

/-- `HTTPError.Timeout` from the source: `StatusCode == 408`. -/
def HTTPError.Timeout (statusCode : Int) : Bool :=
  statusCode == 408

/-- `shouldRetryError` from the source, the built-in classifier.  The
argument is `Option Err` because Go's `error` is nilable (`none` = `nil`). -/
def shouldRetryError (err : Option Err) : Bool :=
  match err with
  | none => false
  | some e =>
    if errorsIsCtx e then false
    else
      -- var netErr net.Error; if errors.As(err, &netErr) { if netErr.Timeout() { return true } }
      let netHit :=
        match errorsAs Err.isNetError e with
        | some ne => ne.netTimeout
        | none => false
      if netHit then true
      -- var opErr *net.OpError; if errors.As(err, &opErr) { return true }
      else if (errorsAs Err.isOpError e).isSome then true
      -- var urlErr *url.Error; if errors.As(err, &urlErr) { return true }
      else if (errorsAs Err.isUrlError e).isSome then true
      else
        -- var httpErr *HTTPError; if errors.As(err, &httpErr) { return httpErr.Temporary() }
        match errorsAs Err.isHTTPError e with
        | some (.httpErr code _) => HTTPError.Temporary code
        | _ => false

example : shouldRetryError (some (.httpErr 503 "")) = true := by decide
example : shouldRetryError (some (.httpErr 404 "")) = false := by decide
example : shouldRetryError (some (.httpErr 429 "")) = true := by decide
example : shouldRetryError (some (.httpErr 408 "")) = true := by decide
example : shouldRetryError (some .canceled) = false := by decide
example : shouldRetryError (some (.wrap .deadlineExceeded)) = false := by decide
example : shouldRetryError none = false := by decide
example : shouldRetryError (some (.other "boom")) = false := by decide
example : shouldRetryError (some (.opErr false none)) = true := by decide
example : shouldRetryError (some (.urlErr false (.other "x"))) = true := by decide
example : shouldRetryError (some (.netErr true "t")) = true := by decide
example : shouldRetryError (some (.netErr false "t")) = false := by decide

/-- Rendering of an error value (`Error()` as consumed by `fmt`'s `%v`).
`*HTTPError.Error` and the two context sentinels render exactly as in Go;
the remaining external types' renderings are abstracted (their exact text is
outside this repository). -/
def Err.errString : Err → String
  | .canceled => "context canceled"
  | .deadlineExceeded => "context deadline exceeded"
  | .httpErr code msg => "HTTP " ++ toString code ++ ": " ++ msg
  | .netErr _ msg => msg
  | .opErr _ _ => "op error"
  | .urlErr _ i => "url error: " ++ i.errString
  | .wrap i => i.errString
  | .other msg => msg

/-- `fmt`'s `%v` on a nilable error: `nil` renders as `<nil>`. -/
def renderLastError : Option Err → String
  | none => "<nil>"
  | some e => e.errString

/-- `RetryError` from the source: the terminal failure envelope. -/
structure RetryError where
  Operation : String
  Attempts : Int
  LastError : Option Err

/-- `(*RetryError).Error()` from the source:
`fmt.Sprintf("operation '%s' failed after %d attempts: %v", e.Operation, e.Attempts, e.LastError)`. -/
def RetryError.Error (e : RetryError) : String :=
  "operation '" ++ e.Operation ++ "' failed after " ++ toString e.Attempts
    ++ " attempts: " ++ renderLastError e.LastError

/-- `(*RetryError).Unwrap()` from the source: returns `e.LastError`. -/
def RetryError.Unwrap (e : RetryError) : Option Err :=
  e.LastError

/-- An error value as returned by `WithRetry`: either a plain error value
(the context's error, surfaced verbatim) or a `*RetryError` envelope. -/
inductive GoError where
  | base (e : Err)
  | retryError (re : RetryError)

/-- Structured log events emitted by the loop when `config.Logger != nil`,
in emission order.  They mirror the three `slog` calls in `WithRetry`. -/
inductive Event where
  | succeededAfterRetry (operation : String) (attempt : Nat)
  | willRetry (operation : String) (attempt : Nat) (maxAttempts : Int) (err : Err)
  | abortedNonRetriable (operation : String) (attempt : Nat) (err : Err)

/-- The package's default constants.  `time.Duration` is `Int` nanoseconds:
`100 * time.Millisecond = 100000000`, `5 * time.Second = 5000000000`. -/
def DefaultMaxAttempts : Int := 3

/-- `DefaultMinDelay = 100 * time.Millisecond`. -/
def DefaultMinDelay : Int := 100 * 1000000

/-- `DefaultMaxDelay = 5 * time.Second`. -/
def DefaultMaxDelay : Int := 5 * 1000000000

/-- `RetryConfig` from the source.  `Logger : Bool` models whether the
nilable `*slog.Logger` is non-nil; `ShouldRetry` is the nilable classifier
(it receives a nilable error, hence `Option Err → Bool`). -/
structure RetryConfig where
  MaxAttempts : Int
  MinDelay : Int
  MaxDelay : Int
  Logger : Bool
  ShouldRetry : Option (Option Err → Bool)

/-- The defaulting prologue of `WithRetry` (its first four `if` statements). -/
def applyDefaults (config : RetryConfig) : RetryConfig :=
  let config :=
    if config.MaxAttempts ≤ 0 then { config with MaxAttempts := DefaultMaxAttempts }
    else config
  let config :=
    if config.MinDelay ≤ 0 then { config with MinDelay := DefaultMinDelay }
    else config
  let config :=
    if config.MaxDelay ≤ 0 then { config with MaxDelay := DefaultMaxDelay }
    else config
  let config :=
    if config.ShouldRetry.isNone then { config with ShouldRetry := some shouldRetryError }
    else config
  config

/-- The caller's `context.Context`, abstracted to what the loop observes:
`cancelWins attempt delay` says whether, in the `select` after the given
attempt, `ctx.Done()` fires before `time.After(delay)` elapses; `ctxErr` is
the value of `ctx.Err()` at that point (`context.Canceled` or
`context.DeadlineExceeded`). -/
structure Ctx where
  cancelWins : Nat → Int → Bool
  ctxErr : Err

/-- Everything observable about one `WithRetry` invocation: the returned
`(T, error)` pair, the log events emitted, and how many times the operation
was invoked. -/
structure RunOutcome (T : Type) where
  value : T
  error : Option GoError
  events : List Event
  invocations : Nat

/-- The `for attempt := 1; attempt <= config.MaxAttempts; attempt++` loop of
`WithRetry`, over an already-defaulted config.  `fuel` counts the loop
iterations still allowed (`config.MaxAttempts - attempt + 1` at entry), so
`fuel = 0` is the loop condition failing; `attempt` is the Go loop variable;
`result` / `lastErr` are the mutables; `events` / `invocations` accumulate
the observables.  The operation is indexed by the attempt number (its
Go argument `ctx` never changes across calls). -/
def retryLoop {T : Type} (backoff : Nat → Int → Int → Int) (ctx : Ctx)
    (config : RetryConfig) (operationName : String)
    (operationFn : Nat → T × Option Err) :
    Nat → Nat → T → Option Err → List Event → Nat → RunOutcome T
  | 0, _, result, lastErr, events, invs =>
    ⟨result, some (.retryError ⟨operationName, config.MaxAttempts, lastErr⟩), events, invs⟩
  | fuel + 1, attempt, _, _, events, invs =>
    let res := operationFn attempt
    let result := res.1
    let invs := invs + 1
    match res.2 with
    | none =>
      let events :=
        if 1 < attempt ∧ config.Logger = true then
          events ++ [.succeededAfterRetry operationName attempt]
        else events
      ⟨result, none, events, invs⟩
    | some e =>
      -- if config.ShouldRetry != nil && !config.ShouldRetry(lastErr) { ...; break }
      let abortNow :=
        match config.ShouldRetry with
        | some f => !(f (some e))
        | none => false
      if abortNow then
        let events :=
          if config.Logger then events ++ [.abortedNonRetriable operationName attempt e]
          else events
        ⟨result, some (.retryError ⟨operationName, config.MaxAttempts, some e⟩), events, invs⟩
      else
        let events :=
          if config.Logger then
            events ++ [.willRetry operationName attempt config.MaxAttempts e]
          else events
        -- if attempt == config.MaxAttempts { break }
        if (attempt : Int) = config.MaxAttempts then
          ⟨result, some (.retryError ⟨operationName, config.MaxAttempts, some e⟩), events, invs⟩
        else
          let delay := backoff attempt config.MinDelay config.MaxDelay
          -- select: ctx.Done() vs time.After(delay)
          if ctx.cancelWins attempt delay then
            ⟨result, some (.base ctx.ctxErr), events, invs⟩
          else
            retryLoop backoff ctx config operationName operationFn
              fuel (attempt + 1) result (some e) events invs

/-- `WithRetry` from the source.  `backoff` stands for the external
`backoff.CalculateExponentialBackoff` (an opaque pure collaborator, per the
spec); `default : T` is Go's zero value of `T` (`var result T`). -/
def WithRetry {T : Type} [Inhabited T] (backoff : Nat → Int → Int → Int)
    (ctx : Ctx) (config : RetryConfig) (operationName : String)
    (operationFn : Nat → T × Option Err) : RunOutcome T :=
  let config := applyDefaults config
  retryLoop backoff ctx config operationName operationFn
    config.MaxAttempts.toNat 1 default none [] 0

/-- A context that is never cancelled and one already cancelled at entry. -/
def neverCancelled : Ctx := ⟨fun _ _ => false, .canceled⟩

/-- A context whose `Done()` channel is already closed when `WithRetry` is
entered (and hence stays closed). -/
def cancelledAtEntry : Ctx := ⟨fun _ _ => true, .canceled⟩

/-- A constant stand-in for the external backoff function in examples. -/
def constBackoff : Nat → Int → Int → Int := fun _ minD _ => minD

example :
    (WithRetry constBackoff neverCancelled ⟨0, 0, 0, false, none⟩ "op"
      (fun _ => ((0 : Int), some (.httpErr 500 "x")))).invocations = 3 := rfl

example :
    (WithRetry constBackoff neverCancelled ⟨0, 0, 0, false, none⟩ "op"
      (fun _ => ((0 : Int), some (.httpErr 404 "x")))).invocations = 1 := rfl

example :
    (WithRetry constBackoff cancelledAtEntry ⟨0, 0, 0, false, none⟩ "op"
      (fun _ => ((7 : Int), none))).value = 7 := rfl

/-! ### Helper lemmas about the defaulting prologue and the loop -/

lemma applyDefaults_eq (cfg : RetryConfig) :
    applyDefaults cfg =
      ⟨if cfg.MaxAttempts ≤ 0 then DefaultMaxAttempts else cfg.MaxAttempts,
       if cfg.MinDelay ≤ 0 then DefaultMinDelay else cfg.MinDelay,
       if cfg.MaxDelay ≤ 0 then DefaultMaxDelay else cfg.MaxDelay,
       cfg.Logger,
       if cfg.ShouldRetry.isNone then some shouldRetryError else cfg.ShouldRetry⟩ := by
  by_cases h1 : cfg.MaxAttempts ≤ 0 <;>
    by_cases h2 : cfg.MinDelay ≤ 0 <;>
      by_cases h3 : cfg.MaxDelay ≤ 0 <;>
        by_cases h4 : cfg.ShouldRetry.isNone <;>
          simp [applyDefaults, h1, h2, h3, h4]

lemma applyDefaults_MaxAttempts (cfg : RetryConfig) :
    (applyDefaults cfg).MaxAttempts =
      if cfg.MaxAttempts ≤ 0 then DefaultMaxAttempts else cfg.MaxAttempts := by
  rw [applyDefaults_eq]

lemma applyDefaults_ShouldRetry (cfg : RetryConfig) :
    (applyDefaults cfg).ShouldRetry =
      if cfg.ShouldRetry.isNone then some shouldRetryError else cfg.ShouldRetry := by
  rw [applyDefaults_eq]

lemma applyDefaults_MaxAttempts_pos (cfg : RetryConfig) :
    1 ≤ (applyDefaults cfg).MaxAttempts := by
  rw [applyDefaults_MaxAttempts]
  unfold DefaultMaxAttempts
  split_ifs with h <;> omega

/-- When every attempt fails with an error the configured classifier accepts
and the context never cancels a wait, the loop consumes all its fuel, makes
one invocation per fuel unit, and ends with a `RetryError` whose `Attempts`
is `cfg.MaxAttempts` and whose `LastError` is the final attempt's error. -/
lemma retryLoop_allFail {T : Type} (backoff : Nat → Int → Int → Int) (ctx : Ctx)
    (cfg : RetryConfig) (name : String) (op : Nat → T × Option Err)
    (f : Option Err → Bool) (errOf : Nat → Err) (m : Nat)
    (hcfg : cfg.ShouldRetry = some f)
    (hmax : cfg.MaxAttempts = (m : Int))
    (herr : ∀ k, (op k).2 = some (errOf k))
    (hretry : ∀ k, f (some (errOf k)) = true)
    (hctx : ∀ a d, ctx.cancelWins a d = false) :
    ∀ fuel attempt r le ev iv, 0 < fuel → attempt + fuel = m + 1 →
      (retryLoop backoff ctx cfg name op fuel attempt r le ev iv).invocations = iv + fuel ∧
      (retryLoop backoff ctx cfg name op fuel attempt r le ev iv).error =
        some (.retryError ⟨name, cfg.MaxAttempts, some (errOf m)⟩) ∧
      (retryLoop backoff ctx cfg name op fuel attempt r le ev iv).value = (op m).1 := by
  intro fuel
  induction fuel with
  | zero => intro attempt r le ev iv hpos _; omega
  | succ fu ih =>
    intro attempt r le ev iv _ hsum
    rcases Nat.eq_zero_or_pos fu with hfu | hfu
    · subst hfu
      have ha : attempt = m := by omega
      subst ha
      simp [retryLoop, herr, hcfg, hretry, hctx, hmax]
    · have hne : ¬ ((attempt : Int) = cfg.MaxAttempts) := by
        rw [hmax]
        intro hc
        have : attempt = m := by exact_mod_cast hc
        omega
      have h := ih (attempt + 1) (op attempt).1 (some (errOf attempt))
        (if cfg.Logger = true then
            ev ++ [Event.willRetry name attempt cfg.MaxAttempts (errOf attempt)]
          else ev) (iv + 1) hfu (by omega)
      simp only [retryLoop, herr attempt, hcfg, hretry attempt, Bool.not_true, hctx, hne,
        if_false, Bool.false_eq_true]
      refine ⟨?_, h.2.1, h.2.2⟩
      rw [h.1]
      omega

/-- Whatever path the loop takes, provided it may run at least one
iteration, it makes between 1 and `fuel` invocations and the `value`
component of the outcome is the first component of the operation's final
invocation (the Go mutables `result, lastErr = operationFn(ctx)` are
returned as-is on every exit path; `result` is never reset to zero). -/
lemma retryLoop_value_tracks {T : Type} (backoff : Nat → Int → Int → Int) (ctx : Ctx)
    (cfg : RetryConfig) (name : String) (op : Nat → T × Option Err) :
    ∀ fuel attempt r le ev iv, 0 < fuel →
      ∃ k, 1 ≤ k ∧ k ≤ fuel ∧
        (retryLoop backoff ctx cfg name op fuel attempt r le ev iv).invocations = iv + k ∧
        (retryLoop backoff ctx cfg name op fuel attempt r le ev iv).value =
          (op (attempt + k - 1)).1 := by
  intro fuel
  induction fuel with
  | zero => intro attempt r le ev iv h; omega
  | succ fu ih =>
    intro attempt r le ev iv _
    rcases hop : (op attempt).2 with _ | e
    · exact ⟨1, le_refl 1, by omega, by simp [retryLoop, hop], by simp [retryLoop, hop]⟩
    · by_cases hab :
        (match cfg.ShouldRetry with | some f => !(f (some e)) | none => false) = true
      · exact ⟨1, le_refl 1, by omega, by simp [retryLoop, hop, hab],
          by simp [retryLoop, hop, hab]⟩
      · by_cases hm : (attempt : Int) = cfg.MaxAttempts
        · exact ⟨1, le_refl 1, by omega, by simp [retryLoop, hop, hab, hm],
            by simp [retryLoop, hop, hab, hm]⟩
        · by_cases hcw :
            ctx.cancelWins attempt (backoff attempt cfg.MinDelay cfg.MaxDelay) = true
          · exact ⟨1, le_refl 1, by omega, by simp [retryLoop, hop, hab, hm, hcw],
              by simp [retryLoop, hop, hab, hm, hcw]⟩
          · rcases Nat.eq_zero_or_pos fu with hfu | hfu
            · subst hfu
              exact ⟨1, le_refl 1, by omega, by simp [retryLoop, hop, hab, hm, hcw],
                by simp [retryLoop, hop, hab, hm, hcw]⟩
            · obtain ⟨k, hk1, hk2, hk3, hk4⟩ := ih (attempt + 1) (op attempt).1 (some e)
                (if cfg.Logger = true then
                    ev ++ [Event.willRetry name attempt cfg.MaxAttempts e]
                  else ev) (iv + 1) hfu
              refine ⟨k + 1, by omega, by omega, ?_, ?_⟩
              · simp only [retryLoop, hop, hab, hm, hcw, Bool.false_eq_true, if_false]
                rw [hk3]
                omega
              · simp only [retryLoop, hop, hab, hm, hcw, Bool.false_eq_true, if_false]
                have he : attempt + (k + 1) - 1 = attempt + 1 + k - 1 := by omega
                rw [he]
                exact hk4

/-- One unfolding of the loop at attempt 1 when the first attempt fails with
an error the configured classifier rejects: the `break` at the
`!config.ShouldRetry(lastErr)` check fires before the "will retry" log, and
the post-loop return reports `Attempts := cfg.MaxAttempts`. -/
lemma retryLoop_abort_first {T : Type} (backoff : Nat → Int → Int → Int) (ctx : Ctx)
    (cfg : RetryConfig) (name : String) (op : Nat → T × Option Err)
    (f : Option Err → Bool) (e : Err) (r : T) (m : Nat)
    (hf : cfg.ShouldRetry = some f)
    (hop : (op 1).2 = some e)
    (hfe : f (some e) = false) :
    retryLoop backoff ctx cfg name op (m + 1) 1 r none [] 0 =
      ⟨(op 1).1, some (.retryError ⟨name, cfg.MaxAttempts, some e⟩),
       if cfg.Logger = true then [Event.abortedNonRetriable name 1 e] else [], 1⟩ := by
  simp [retryLoop, hop, hf, hfe]

/-- One unfolding of the loop at attempt 1 when the first attempt succeeds:
immediate success return, no events (the success log requires `attempt > 1`). -/
lemma retryLoop_success_first {T : Type} (backoff : Nat → Int → Int → Int) (ctx : Ctx)
    (cfg : RetryConfig) (name : String) (op : Nat → T × Option Err) (r : T) (m : Nat)
    (hop : (op 1).2 = none) :
    retryLoop backoff ctx cfg name op (m + 1) 1 r none [] 0 =
      ⟨(op 1).1, none, [], 1⟩ := by
  simp [retryLoop, hop]

/-- One unfolding of the loop at attempt 1 when the first attempt fails with
a retryable error, more attempts remain, and the context's `Done()` channel
beats the backoff timer in the `select`: the context's own error is returned
as-is, not wrapped. -/
lemma retryLoop_cancel_first {T : Type} (backoff : Nat → Int → Int → Int) (ctx : Ctx)
    (cfg : RetryConfig) (name : String) (op : Nat → T × Option Err)
    (f : Option Err → Bool) (e : Err) (r : T) (m : Nat)
    (hf : cfg.ShouldRetry = some f)
    (hop : (op 1).2 = some e)
    (hfe : f (some e) = true)
    (hm : ¬ (1 : Int) = cfg.MaxAttempts)
    (hcw : ctx.cancelWins 1 (backoff 1 cfg.MinDelay cfg.MaxDelay) = true) :
    retryLoop backoff ctx cfg name op (m + 1) 1 r none [] 0 =
      ⟨(op 1).1, some (.base ctx.ctxErr),
       if cfg.Logger = true then [Event.willRetry name 1 cfg.MaxAttempts e] else [], 1⟩ := by
  simp [retryLoop, hop, hf, hfe, hm, hcw]

/-! ### Claim theorems -/

/-- **C7** (confirmed): the built-in classifier `shouldRetryError` is a total
Boolean function and returns: `false` for a nil error; `false` for an error
that is or wraps a cancellation or deadline-exceeded signal; `true` for an
HTTP-like error with status 503; `false` for status 404; `true` for status
429; and `false` for any error matching none of the decision-table rows
(not a context signal, no `net.Error` hit with `Timeout()`, no
`*net.OpError`, no `*url.Error`, no `*HTTPError` anywhere in its chain). -/
theorem claim_C7 :
    shouldRetryError none = false ∧
    (∀ e : Err, errorsIsCtx e = true → shouldRetryError (some e) = false) ∧
    (∀ msg, shouldRetryError (some (.httpErr 503 msg)) = true) ∧
    (∀ msg, shouldRetryError (some (.httpErr 404 msg)) = false) ∧
    (∀ msg, shouldRetryError (some (.httpErr 429 msg)) = true) ∧
    (∀ e : Err, errorsIsCtx e = false →
      (∀ ne, errorsAs Err.isNetError e = some ne → ne.netTimeout = false) →
      errorsAs Err.isOpError e = none →
      errorsAs Err.isUrlError e = none →
      errorsAs Err.isHTTPError e = none →
      shouldRetryError (some e) = false) := by
  refine ⟨rfl, ?_, ?_, ?_, ?_, ?_⟩
  · intro e he
    simp [shouldRetryError, he]
  · intro msg
    simp [shouldRetryError, errorsIsCtx, errorsAs, Err.isNetError, Err.netTimeout,
      Err.isOpError, Err.isUrlError, Err.isHTTPError, HTTPError.Temporary]
  · intro msg
    simp [shouldRetryError, errorsIsCtx, errorsAs, Err.isNetError, Err.netTimeout,
      Err.isOpError, Err.isUrlError, Err.isHTTPError, HTTPError.Temporary]
  · intro msg
    simp [shouldRetryError, errorsIsCtx, errorsAs, Err.isNetError, Err.netTimeout,
      Err.isOpError, Err.isUrlError, Err.isHTTPError, HTTPError.Temporary]
  · intro e hctx hnet hopE hurl hhttp
    simp only [shouldRetryError, hctx, Bool.false_eq_true, if_false, hopE, hurl, hhttp,
      Option.isSome_none]
    cases hne : errorsAs Err.isNetError e with
    | none => simp
    | some ne => simp [hnet ne hne]

/-- Closed witness for `claim_C7`: the hypothesis-bearing conjuncts applied
at an explicit cancellation error and an explicit opaque error. -/
theorem claim_C7_witness :
    shouldRetryError (some .canceled) = false ∧
    shouldRetryError (some (.other "disk full")) = false :=
  ⟨claim_C7.2.1 .canceled rfl,
   claim_C7.2.2.2.2.2 (.other "disk full") rfl
     (fun ne h => by simp [errorsAs, Err.isNetError] at h) rfl rfl rfl⟩

/-- **C3** counterexample: the claim says a bare HTTP-like error with status
408 is classified non-retryable because only `isTemporary()` gates the HTTP
path.  In the code, `*HTTPError` has `Error`, `Timeout` and `Temporary`
methods, so it satisfies the `net.Error` interface: `errors.As(err, &netErr)`
matches it and `netErr.Timeout()` is true for 408, so the classifier returns
`true` (retryable) already at the network-timeout check. -/
theorem claim_C3_counterexample :
    shouldRetryError (some (.httpErr 408 "request timeout")) = true := by
  decide

/-- **C3** (amended): a bare HTTP-like error is itself caught by the
`net.Error` check (its pointer type implements that interface), so its
verdict is `isTimeout() OR isTemporary()`: retryable iff
`statusCode == 408 ∨ statusCode ≥ 500 ∨ statusCode == 429`; the later
dedicated `*HTTPError` row decides only errors whose `Timeout()` is false,
where it applies `isTemporary()`. -/
theorem claim_C3 (code : Int) (msg : String) :
    shouldRetryError (some (.httpErr code msg)) =
      (HTTPError.Timeout code || HTTPError.Temporary code) := by
  by_cases h : code = 408
  · subst h
    simp [shouldRetryError, errorsIsCtx, errorsAs, Err.isNetError, Err.netTimeout,
      HTTPError.Timeout, HTTPError.Temporary]
  · have ht : HTTPError.Timeout code = false := by
      simp [HTTPError.Timeout, h]
    simp [shouldRetryError, errorsIsCtx, errorsAs, Err.isNetError, Err.netTimeout,
      Err.isOpError, Err.isUrlError, Err.isHTTPError, ht, h]

/-- **C9** (confirmed): every `RetryError` renders as exactly
`operation '<name>' failed after <n> attempts: <lastError rendering>` and
unwraps to exactly the stored `LastError`, so callers can walk the causal
chain through the envelope. -/
theorem claim_C9 (re : RetryError) :
    re.Error = "operation '" ++ re.Operation ++ "' failed after "
        ++ toString re.Attempts ++ " attempts: " ++ renderLastError re.LastError ∧
    re.Unwrap = re.LastError :=
  ⟨rfl, rfl⟩

/-- **C1** counterexample: with `maxAttempts = 3` and a first attempt failing
with a non-retriable error (HTTP 404 under the default classifier), the
operation is invoked exactly once, but the returned `RetryError` carries
`Attempts = 3` — the configured `config.MaxAttempts`, not the single attempt
actually made, contradicting `attemptsMade == 1`. -/
theorem claim_C1_counterexample :
    (WithRetry constBackoff neverCancelled ⟨3, 1, 1, false, none⟩ "op"
        (fun _ => ((0 : Int), some (.httpErr 404 "not found")))).invocations = 1 ∧
    (WithRetry constBackoff neverCancelled ⟨3, 1, 1, false, none⟩ "op"
        (fun _ => ((0 : Int), some (.httpErr 404 "not found")))).error =
      some (.retryError ⟨"op", 3, some (.httpErr 404 "not found")⟩) ∧
    ¬ ((3 : Int) = 1) :=
  ⟨rfl, rfl, by decide⟩

/-- **C1** (amended): for every policy and every operation whose first
attempt fails with an error the (defaulted) classifier rejects, `WithRetry`
invokes the operation exactly once, but the returned `RetryError`'s
`Attempts` field equals the configured (defaulted) `MaxAttempts`, not the
number of attempts actually made. -/
theorem claim_C1 {T : Type} [Inhabited T] (backoff : Nat → Int → Int → Int) (ctx : Ctx)
    (cfg : RetryConfig) (name : String) (op : Nat → T × Option Err)
    (f : Option Err → Bool) (e : Err)
    (hf : (applyDefaults cfg).ShouldRetry = some f)
    (hop : (op 1).2 = some e)
    (hfe : f (some e) = false) :
    (WithRetry backoff ctx cfg name op).invocations = 1 ∧
    (WithRetry backoff ctx cfg name op).error =
      some (.retryError ⟨name, (applyDefaults cfg).MaxAttempts, some e⟩) := by
  have hpos := applyDefaults_MaxAttempts_pos cfg
  have hm : (applyDefaults cfg).MaxAttempts.toNat =
      ((applyDefaults cfg).MaxAttempts.toNat - 1) + 1 := by omega
  simp only [WithRetry]
  rw [hm, retryLoop_abort_first backoff ctx (applyDefaults cfg) name op f e default
    ((applyDefaults cfg).MaxAttempts.toNat - 1) hf hop hfe]
  exact ⟨rfl, rfl⟩

/-- Closed witness for `claim_C1`: a classifier rejecting everything, a
configured `MaxAttempts` of 5, one invocation, `Attempts = 5`. -/
theorem claim_C1_witness :
    (WithRetry constBackoff neverCancelled ⟨5, 1, 1, false, some (fun _ => false)⟩ "w"
        (fun _ => ((0 : Int), some (.other "e")))).invocations = 1 ∧
    (WithRetry constBackoff neverCancelled ⟨5, 1, 1, false, some (fun _ => false)⟩ "w"
        (fun _ => ((0 : Int), some (.other "e")))).error =
      some (.retryError ⟨"w", 5, some (.other "e")⟩) :=
  claim_C1 constBackoff neverCancelled ⟨5, 1, 1, false, some (fun _ => false)⟩ "w"
    (fun _ => ((0 : Int), some (.other "e"))) (fun _ => false) (.other "e") rfl rfl rfl

/-- **C2** counterexample: an operation that itself returns
`context.Canceled` as its attempt error, under the default classifier, does
NOT have that error surfaced verbatim: the classifier rejects it, the loop
breaks, and the cancellation error is wrapped inside the `RetryError`
envelope as `LastError` — contradicting "never wrapped inside a
RetryFailure". -/
theorem claim_C2_counterexample :
    (WithRetry constBackoff neverCancelled ⟨0, 0, 0, false, none⟩ "op"
        (fun _ => ((0 : Int), some .canceled))).error =
      some (.retryError ⟨"op", 3, some .canceled⟩) ∧
    (WithRetry constBackoff neverCancelled ⟨0, 0, 0, false, none⟩ "op"
        (fun _ => ((0 : Int), some .canceled))).error ≠
      some (.base .canceled) := by
  have hev : (WithRetry constBackoff neverCancelled ⟨0, 0, 0, false, none⟩ "op"
      (fun _ => ((0 : Int), some .canceled))).error =
      some (.retryError ⟨"op", 3, some .canceled⟩) := rfl
  refine ⟨hev, ?_⟩
  rw [hev]
  intro h
  exact GoError.noConfusion (Option.some.inj h)

/-- **C2** (amended): a cancellation or deadline error observed during the
inter-attempt wait is returned verbatim (`ctx.Err()`, never wrapped); but
when the operation itself returns `context.Canceled` as its attempt error,
the default classifier rejects it and `WithRetry` wraps it inside the
`RetryError` envelope as `LastError`. -/
theorem claim_C2 {T : Type} [Inhabited T] (backoff : Nat → Int → Int → Int) (ctx : Ctx)
    (cfg : RetryConfig) (name : String) (op : Nat → T × Option Err)
    (f : Option Err → Bool) (e : Err)
    (hf : (applyDefaults cfg).ShouldRetry = some f)
    (hop : (op 1).2 = some e) :
    (f (some e) = true →
      ¬ (1 : Int) = (applyDefaults cfg).MaxAttempts →
      ctx.cancelWins 1
        (backoff 1 (applyDefaults cfg).MinDelay (applyDefaults cfg).MaxDelay) = true →
      (WithRetry backoff ctx cfg name op).error = some (.base ctx.ctxErr)) ∧
    (e = .canceled → f = shouldRetryError →
      (WithRetry backoff ctx cfg name op).error =
        some (.retryError ⟨name, (applyDefaults cfg).MaxAttempts, some .canceled⟩)) := by
  have hpos := applyDefaults_MaxAttempts_pos cfg
  have hm : (applyDefaults cfg).MaxAttempts.toNat =
      ((applyDefaults cfg).MaxAttempts.toNat - 1) + 1 := by omega
  constructor
  · intro hfe hne hcw
    simp only [WithRetry]
    rw [hm, retryLoop_cancel_first backoff ctx (applyDefaults cfg) name op f e default
      ((applyDefaults cfg).MaxAttempts.toNat - 1) hf hop hfe hne hcw]
  · intro he hfdef
    subst he
    subst hfdef
    simp only [WithRetry]
    rw [hm, retryLoop_abort_first backoff ctx (applyDefaults cfg) name op
      shouldRetryError .canceled default
      ((applyDefaults cfg).MaxAttempts.toNat - 1) hf hop rfl]

/-- Closed witness for `claim_C2`: a context whose cancellation beats the
first backoff wait surfaces `context.Canceled` verbatim; an operation that
returns `context.Canceled` itself gets it wrapped in the envelope. -/
theorem claim_C2_witness :
    (WithRetry constBackoff cancelledAtEntry ⟨2, 1, 1, false, some (fun _ => true)⟩ "w"
        (fun _ => ((0 : Int), some (.other "e")))).error = some (.base .canceled) ∧
    (WithRetry constBackoff neverCancelled ⟨2, 1, 1, false, none⟩ "w"
        (fun _ => ((0 : Int), some .canceled))).error =
      some (.retryError ⟨"w", 2, some .canceled⟩) :=
  ⟨(claim_C2 constBackoff cancelledAtEntry ⟨2, 1, 1, false, some (fun _ => true)⟩ "w"
      (fun _ => ((0 : Int), some (.other "e"))) (fun _ => true) (.other "e") rfl rfl).1
      rfl (by decide) rfl,
   (claim_C2 constBackoff neverCancelled ⟨2, 1, 1, false, none⟩ "w"
      (fun _ => ((0 : Int), some .canceled)) shouldRetryError .canceled rfl rfl).2
      rfl rfl⟩

/-- **C4** counterexample: with `maxAttempts = 1` and an operation returning
the non-zero value 7 alongside a retryable error, the error-returning exit
of `WithRetry` carries 7 — the last attempt's result — not the zero value
of `Int`. -/
theorem claim_C4_counterexample :
    (WithRetry constBackoff neverCancelled ⟨1, 1, 1, false, some (fun _ => true)⟩ "op"
        (fun _ => ((7 : Int), some (.other "boom")))).value = 7 ∧
    (WithRetry constBackoff neverCancelled ⟨1, 1, 1, false, some (fun _ => true)⟩ "op"
        (fun _ => ((7 : Int), some (.other "boom")))).error =
      some (.retryError ⟨"op", 1, some (.other "boom")⟩) ∧
    ¬ ((7 : Int) = 0) :=
  ⟨rfl, rfl, by decide⟩

/-- **C4** (amended): on every exit of `WithRetry` — error-returning or not —
the result component equals the first component of the operation's final
invocation (Go's `result` variable is live across the loop and returned
as-is); it is the zero value of `T` only when the operation returned it.
The operation is always invoked at least once. -/
theorem claim_C4 {T : Type} [Inhabited T] (backoff : Nat → Int → Int → Int) (ctx : Ctx)
    (cfg : RetryConfig) (name : String) (op : Nat → T × Option Err) :
    1 ≤ (WithRetry backoff ctx cfg name op).invocations ∧
    (WithRetry backoff ctx cfg name op).value =
      (op (WithRetry backoff ctx cfg name op).invocations).1 := by
  have hpos := applyDefaults_MaxAttempts_pos cfg
  obtain ⟨k, hk1, _, hk3, hk4⟩ :=
    retryLoop_value_tracks backoff ctx (applyDefaults cfg) name op
      (applyDefaults cfg).MaxAttempts.toNat 1 default none [] 0 (by omega)
  simp only [WithRetry]
  rw [hk3, hk4]
  have he : 1 + k - 1 = 0 + k := by omega
  rw [he]
  exact ⟨by omega, rfl⟩

/-- **C5** (confirmed): for every policy with `maxAttempts = n ≥ 1` and
every operation failing on all attempts with errors the configured
classifier accepts, `WithRetry` (with a never-cancelled context) invokes the
operation exactly `n` times and returns a `RetryError` with `Attempts = n`
and `LastError` the error of the final (`n`-th) attempt. -/
theorem claim_C5 {T : Type} [Inhabited T] (backoff : Nat → Int → Int → Int) (ctx : Ctx)
    (cfg : RetryConfig) (name : String) (op : Nat → T × Option Err)
    (f : Option Err → Bool) (errOf : Nat → Err) (n : Nat)
    (hn : 1 ≤ n)
    (hmax : cfg.MaxAttempts = (n : Int))
    (hcfg : cfg.ShouldRetry = some f)
    (herr : ∀ k, (op k).2 = some (errOf k))
    (hretry : ∀ k, f (some (errOf k)) = true)
    (hctx : ∀ a d, ctx.cancelWins a d = false) :
    (WithRetry backoff ctx cfg name op).invocations = n ∧
    (WithRetry backoff ctx cfg name op).error =
      some (.retryError ⟨name, (n : Int), some (errOf n)⟩) := by
  have hd1 : (applyDefaults cfg).MaxAttempts = (n : Int) := by
    rw [applyDefaults_MaxAttempts, hmax, if_neg (by omega)]
  have hd2 : (applyDefaults cfg).ShouldRetry = some f := by
    rw [applyDefaults_ShouldRetry, hcfg]
    rfl
  have hfuel : (applyDefaults cfg).MaxAttempts.toNat = n := by
    rw [hd1]
    omega
  have h := retryLoop_allFail backoff ctx (applyDefaults cfg) name op f errOf n
    hd2 hd1 herr hretry hctx n 1 default none [] 0 (by omega) (by omega)
  simp only [WithRetry]
  rw [hfuel]
  refine ⟨by rw [h.1]; exact Nat.zero_add n, ?_⟩
  rw [h.2.1, hd1]

/-- Closed witness for `claim_C5`: two attempts, both failing with an error
the classifier accepts, two invocations, `Attempts = 2`. -/
theorem claim_C5_witness :
    (WithRetry constBackoff neverCancelled ⟨2, 1, 1, false, some (fun _ => true)⟩ "w"
        (fun _ => ((0 : Int), some (.other "e")))).invocations = 2 ∧
    (WithRetry constBackoff neverCancelled ⟨2, 1, 1, false, some (fun _ => true)⟩ "w"
        (fun _ => ((0 : Int), some (.other "e")))).error =
      some (.retryError ⟨"w", 2, some (.other "e")⟩) :=
  claim_C5 constBackoff neverCancelled ⟨2, 1, 1, false, some (fun _ => true)⟩ "w"
    (fun _ => ((0 : Int), some (.other "e"))) (fun _ => true) (fun _ => .other "e") 2
    (by omega) rfl rfl (fun _ => rfl) (fun _ => rfl) (fun _ _ => rfl)

/-- **C6** counterexample: with logging enabled and a first attempt failing
non-retriably (HTTP 404 under the default classifier), the emitted event
list is exactly the single "aborted, non-retriable" event — the claimed
"will retry" event is never emitted, because the abort check precedes the
"will retry" log in the loop body. -/
theorem claim_C6_counterexample :
    (WithRetry constBackoff neverCancelled ⟨3, 1, 1, true, none⟩ "op"
        (fun _ => ((0 : Int), some (.httpErr 404 "nf")))).events =
      [Event.abortedNonRetriable "op" 1 (.httpErr 404 "nf")] ∧
    (WithRetry constBackoff neverCancelled ⟨3, 1, 1, true, none⟩ "op"
        (fun _ => ((0 : Int), some (.httpErr 404 "nf")))).events ≠
      [Event.willRetry "op" 1 3 (.httpErr 404 "nf"),
       Event.abortedNonRetriable "op" 1 (.httpErr 404 "nf")] := by
  have hev : (WithRetry constBackoff neverCancelled ⟨3, 1, 1, true, none⟩ "op"
      (fun _ => ((0 : Int), some (.httpErr 404 "nf")))).events =
      [Event.abortedNonRetriable "op" 1 (.httpErr 404 "nf")] := rfl
  refine ⟨hev, ?_⟩
  rw [hev]
  intro h
  simpa using congrArg List.length h

/-- **C6** (amended): when an attempt fails with an error the configured
classifier rejects, only the "aborted, non-retriable" event is emitted for
that attempt — no "will retry" event precedes it, at any attempt index; for
a first-attempt non-retriable failure the whole run emits exactly the one
aborted event. -/
theorem claim_C6 {T : Type} [Inhabited T] (backoff : Nat → Int → Int → Int) (ctx : Ctx)
    (cfg : RetryConfig) (name : String) (op : Nat → T × Option Err)
    (f : Option Err → Bool) (e : Err)
    (hlog : cfg.Logger = true)
    (hf : (applyDefaults cfg).ShouldRetry = some f)
    (hop : (op 1).2 = some e)
    (hfe : f (some e) = false) :
    (WithRetry backoff ctx cfg name op).events =
      [Event.abortedNonRetriable name 1 e] := by
  have hpos := applyDefaults_MaxAttempts_pos cfg
  have hm : (applyDefaults cfg).MaxAttempts.toNat =
      ((applyDefaults cfg).MaxAttempts.toNat - 1) + 1 := by omega
  have hlog2 : (applyDefaults cfg).Logger = true := by
    rw [applyDefaults_eq]
    exact hlog
  simp only [WithRetry]
  rw [hm, retryLoop_abort_first backoff ctx (applyDefaults cfg) name op f e default
    ((applyDefaults cfg).MaxAttempts.toNat - 1) hf hop hfe]
  simp [hlog2]

/-- Closed witness for `claim_C6`: a rejecting classifier with logging on
produces exactly one aborted event. -/
theorem claim_C6_witness :
    (WithRetry constBackoff neverCancelled ⟨4, 1, 1, true, some (fun _ => false)⟩ "w"
        (fun _ => ((0 : Int), some (.other "e")))).events =
      [Event.abortedNonRetriable "w" 1 (.other "e")] :=
  claim_C6 constBackoff neverCancelled ⟨4, 1, 1, true, some (fun _ => false)⟩ "w"
    (fun _ => ((0 : Int), some (.other "e"))) (fun _ => false) (.other "e")
    rfl rfl rfl rfl

/-- **C8** (confirmed): an invocation whose config fields are all zero/unset
behaves identically — same value, error, events and invocation count, for
every operation, context and backoff function — to one given the documented
defaults: `MaxAttempts = 3`, `MinDelay = 100ms`, `MaxDelay = 5s`, and the
built-in classifier `shouldRetryError` in place of the nil classifier. -/
theorem claim_C8 {T : Type} [Inhabited T] (backoff : Nat → Int → Int → Int) (ctx : Ctx)
    (logger : Bool) (name : String) (op : Nat → T × Option Err) :
    WithRetry backoff ctx ⟨0, 0, 0, logger, none⟩ name op =
      WithRetry backoff ctx
        ⟨DefaultMaxAttempts, DefaultMinDelay, DefaultMaxDelay, logger,
          some shouldRetryError⟩ name op := by
  simp only [WithRetry, applyDefaults_eq]
  norm_num [DefaultMaxAttempts, DefaultMinDelay, DefaultMaxDelay]

/-- **C10** (confirmed): for every call to `WithRetry`, the operation is
invoked at least once, whatever the context's cancellation state — the
context is consulted only in the inter-attempt `select` — and if the first
attempt succeeds with value `v`, that success is returned as `(v, nil)` in
one invocation, even under a context already cancelled at entry. -/
theorem claim_C10 {T : Type} [Inhabited T] (backoff : Nat → Int → Int → Int) (ctx : Ctx)
    (cfg : RetryConfig) (name : String) (op : Nat → T × Option Err) :
    1 ≤ (WithRetry backoff ctx cfg name op).invocations ∧
    (∀ v : T, op 1 = (v, none) →
      (WithRetry backoff ctx cfg name op).value = v ∧
      (WithRetry backoff ctx cfg name op).error = none ∧
      (WithRetry backoff ctx cfg name op).invocations = 1) := by
  have hpos := applyDefaults_MaxAttempts_pos cfg
  have hm : (applyDefaults cfg).MaxAttempts.toNat =
      ((applyDefaults cfg).MaxAttempts.toNat - 1) + 1 := by omega
  constructor
  · obtain ⟨k, hk1, _, hk3, _⟩ :=
      retryLoop_value_tracks backoff ctx (applyDefaults cfg) name op
        (applyDefaults cfg).MaxAttempts.toNat 1 default none [] 0 (by omega)
    simp only [WithRetry]
    rw [hk3]
    omega
  · intro v hv
    have hop : (op 1).2 = none := by rw [hv]
    have hv1 : (op 1).1 = v := by rw [hv]
    simp only [WithRetry]
    rw [hm, retryLoop_success_first backoff ctx (applyDefaults cfg) name op default
      ((applyDefaults cfg).MaxAttempts.toNat - 1) hop]
    exact ⟨hv1, rfl, rfl⟩

/-- Closed witness for `claim_C10`: a context already cancelled at entry
still yields one real attempt whose success is returned as success. -/
theorem claim_C10_witness :
    1 ≤ (WithRetry constBackoff cancelledAtEntry ⟨0, 0, 0, false, none⟩ "w"
        (fun _ => ((7 : Int), none))).invocations ∧
    (WithRetry constBackoff cancelledAtEntry ⟨0, 0, 0, false, none⟩ "w"
        (fun _ => ((7 : Int), none))).value = 7 ∧
    (WithRetry constBackoff cancelledAtEntry ⟨0, 0, 0, false, none⟩ "w"
        (fun _ => ((7 : Int), none))).error = none ∧
    (WithRetry constBackoff cancelledAtEntry ⟨0, 0, 0, false, none⟩ "w"
        (fun _ => ((7 : Int), none))).invocations = 1 :=
  ⟨(claim_C10 constBackoff cancelledAtEntry ⟨0, 0, 0, false, none⟩ "w"
      (fun _ => ((7 : Int), none))).1,
   (claim_C10 constBackoff cancelledAtEntry ⟨0, 0, 0, false, none⟩ "w"
      (fun _ => ((7 : Int), none))).2 7 rfl⟩
